import Mathlib

/-!
Verification development for the overstory coordination plane.

The development shallowly embeds the parts of the code base that the
checked properties talk about: the four-tier merge resolver, the git
worktree manager, the mailbox client (send / reply / markRead /
check --inject with pending-nudge markers) and the tmux session lister.
External processes (git, tmux, the assistant CLI) are modelled as an
environment record answering each query the code makes.
-/

namespace Overstory

/-! ### String utilities

The TypeScript code works with JavaScript string methods
(`split("\n")`, `startsWith`, `includes`, `trim`, `indexOf`).  They are
embedded here as structurally recursive functions over `List Char` so
that every definition evaluates inside the kernel. -/

/-- JavaScript `s.split("\n")` on the character list, accumulating the
current line in reverse. -/
def splitLinesAux (cur : List Char) : List Char → List (List Char)
  | [] => [cur.reverse]
  | c :: cs =>
      if c = '\n' then cur.reverse :: splitLinesAux [] cs
      else splitLinesAux (c :: cur) cs

/-- JavaScript `s.split("\n")`. -/
def splitLines (s : String) : List String :=
  (splitLinesAux [] s.toList).map String.mk

/-- Concatenate lines back with `"\n"` separators (inverse of `splitLines`). -/
def joinLines : List String → String
  | [] => ""
  | [l] => l
  | l :: ls => l ++ "\n" ++ joinLines ls

/-- JavaScript `s.startsWith(pre)`. -/
def strStartsWith (s pre : String) : Bool :=
  pre.toList.isPrefixOf s.toList

/-- Helper for `strIncludes`: does `needle` occur as a contiguous run
anywhere in the haystack? -/
def listIncludes (needle : List Char) : List Char → Bool
  | [] => needle.isEmpty
  | c :: rest => needle.isPrefixOf (c :: rest) || listIncludes needle rest

/-- JavaScript `hay.includes(needle)`. -/
def strIncludes (hay needle : String) : Bool :=
  listIncludes needle.toList hay.toList

/-- JavaScript whitespace test for `trim` (the characters the code can
actually meet in git/tmux output). -/
def isJsSpace (c : Char) : Bool :=
  c = ' ' || c = '\t' || c = '\n' || c = '\r'

/-- JavaScript `s.trim()`. -/
def strTrim (s : String) : String :=
  String.mk (((s.toList.dropWhile isJsSpace).reverse.dropWhile isJsSpace).reverse)

/-! ### Conflict-marker stripping (merge resolver, tier 2) -/

/-- Scanner mode while walking the lines of a conflicted file: outside any
conflict block, inside the HEAD (ours) side, or inside the incoming side. -/
inductive CMode
  | keep
  | inHead
  | inIncoming
  deriving DecidableEq

/-- Modelled from the spec: the line scanner of tier 2 of the merge
resolver (`resolveConflictsKeepIncoming` in `src/merge/resolver.ts`, whose
implementation file is absent from the sources; behaviour fixed by
spec section 4.10 and by the resolver test files).  A line starting a
conflict marker switches the scanner mode; HEAD-side lines are dropped,
incoming-side lines and lines outside any conflict block are kept. -/
def stripLines : CMode → List String → List String
  | _, [] => []
  | CMode.keep, l :: ls =>
      if strStartsWith l "<<<<<<<" then stripLines CMode.inHead ls
      else l :: stripLines CMode.keep ls
  | CMode.inHead, l :: ls =>
      if strStartsWith l "=======" then stripLines CMode.inIncoming ls
      else stripLines CMode.inHead ls
  | CMode.inIncoming, l :: ls =>
      if strStartsWith l ">>>>>>>" then stripLines CMode.keep ls
      else l :: stripLines CMode.inIncoming ls

/-- A file's working-copy content contains the standard conflict markers. -/
def hasMarkers (s : String) : Bool :=
  (splitLines s).any (fun l => strStartsWith l "<<<<<<<")

/-- Modelled from the spec: keep the incoming side of every conflict block;
`none` when the content has no conflict markers (e.g. a delete/modify
conflict), in which case the file is an unresolved residual for the later
tiers. -/
def resolveConflictsKeepIncoming (content : String) : Option String :=
  if hasMarkers content then
    some (joinLines (stripLines CMode.keep (splitLines content)))
  else none

example :
    resolveConflictsKeepIncoming
      "<<<<<<< HEAD\nold content\n=======\nnew content\n>>>>>>> branch\n"
      = some "new content\n" := by decide

example : resolveConflictsKeepIncoming "plain content" = none := by decide

/-! ### Merge resolver data model

The merge entry, result record and configuration, following
`src/types.ts` as exercised by the resolver test files. -/

/-- The escalation tier that resolved a merge. -/
inductive Tier
  | cleanMerge
  | autoResolve
  | aiResolve
  | reimagine
  deriving DecidableEq

/-- Terminal and initial states of a merge entry. -/
inductive EntryStatus
  | pending
  | merged
  | failed
  deriving DecidableEq

/-- A queued merge entry (`MergeEntry` in `src/types.ts`). -/
structure MergeEntry where
  branchName : String
  beadId : String
  agentName : String
  filesModified : List String
  enqueuedAt : String
  status : EntryStatus
  resolvedTier : Option Tier
  deriving DecidableEq

/-- Resolver configuration: which of the gated tiers are enabled. -/
structure MergeConfig where
  aiResolveEnabled : Bool
  reimagineEnabled : Bool
  deriving DecidableEq

/-- The error thrown when the canonical branch cannot be checked out. -/
structure MergeError where
  message : String
  deriving DecidableEq

/-- The result record returned by `resolve`. -/
structure MergeResult where
  entry : MergeEntry
  success : Bool
  tier : Option Tier
  conflictFiles : List String
  errorMessage : Option String
  deriving DecidableEq

/-- Observable state of the working copy after `resolve` returns:
whether a merge is still in progress and whether `git status --porcelain`
would report changes. -/
structure RepoState where
  mergeInProgress : Bool
  dirty : Bool
  deriving DecidableEq

/-- The state entered when `git merge` reports conflicts. -/
def startMergeConflict : RepoState := { mergeInProgress := true, dirty := true }

/-- `git add` + `git commit --no-edit`: concludes the merge, working copy clean. -/
def commitMerge (_s : RepoState) : RepoState := { mergeInProgress := false, dirty := false }

/-- `git merge --abort`: discards the in-progress merge, working copy clean. -/
def abortMerge (_s : RepoState) : RepoState := { mergeInProgress := false, dirty := false }

/-- Environment answering every external query `resolve` makes:
whether `git checkout <canonical>` succeeds (with its stderr), whether
`git merge --no-edit <branch>` is clean, the conflicted paths reported by
`git diff --name-only --diff-filter=U`, the working-copy content of each
conflicted path, the tier-3 assistant output per path (`none` models a
non-zero assistant exit), `git show <ref>:<path>` content, and the tier-4
assistant output given a path with its canonical and branch versions. -/
structure ResolverEnv where
  checkoutOk : Bool
  checkoutStderr : String
  mergeClean : Bool
  conflictedFiles : List String
  fileContent : String → String
  aiOutput : String → Option String
  showFile : String → String → Option String
  reimagineOutput : String → String → String → Option String

/-- Outcome of `resolve`: the result record, the final working-copy state,
and the file writes that survive to the returned state (writes undone by
`git merge --abort` are not part of the surviving trace). -/
structure ResolveOutcome where
  result : MergeResult
  repo : RepoState
  writes : List (String × String)
  deriving DecidableEq

/-- Tier-4 content for one path: fetch the canonical and branch versions
with `git show` and ask the assistant to reimplement the change; any
missing version or assistant failure fails the path. -/
def reimagineFile (env : ResolverEnv) (canonicalBranch branchName f : String) :
    Option String :=
  match env.showFile canonicalBranch f, env.showFile branchName f with
  | some cv, some bv => env.reimagineOutput f cv bv
  | _, _ => none

/-- Modelled from the spec: `createMergeResolver(...).resolve` of
`src/merge/resolver.ts` (implementation file absent from the sources;
behaviour fixed by spec section 4.10 and the resolver test files).
Check out the canonical branch — a failure there throws `MergeError`
(per the unit and integration tests).  A clean merge is tier 1.  On
conflict, tier 2 rewrites every marker-bearing conflicted file keeping
the incoming side and succeeds when no residual remains; tier 3 (gated
on `aiResolveEnabled`) asks the assistant for each residual; tier 4
(gated on `reimagineEnabled`) aborts the merge and reimplements each of
the entry's modified files onto canonical; when everything fails the
merge is aborted and a failed result is returned. -/
def resolve (cfg : MergeConfig) (env : ResolverEnv) (entry : MergeEntry)
    (canonicalBranch _repoRoot : String) : Except MergeError ResolveOutcome :=
  if env.checkoutOk = false then
    Except.error ⟨"Failed to checkout " ++ canonicalBranch ++ ": " ++ env.checkoutStderr⟩
  else if env.mergeClean then
    Except.ok
      { result :=
          { entry := { entry with status := EntryStatus.merged, resolvedTier := some Tier.cleanMerge }
            success := true
            tier := some Tier.cleanMerge
            conflictFiles := []
            errorMessage := none }
        repo := { mergeInProgress := false, dirty := false }
        writes := [] }
  else
    let conflicts := env.conflictedFiles
    let tier2Writes := conflicts.filterMap fun f =>
      (resolveConflictsKeepIncoming (env.fileContent f)).map fun c => (f, c)
    let residual := conflicts.filter fun f =>
      (resolveConflictsKeepIncoming (env.fileContent f)).isNone
    if residual = [] then
      Except.ok
        { result :=
            { entry := { entry with status := EntryStatus.merged, resolvedTier := some Tier.autoResolve }
              success := true
              tier := some Tier.autoResolve
              conflictFiles := conflicts
              errorMessage := none }
          repo := commitMerge startMergeConflict
          writes := tier2Writes }
    else
      let tier3 : Option (List (String × String)) :=
        if cfg.aiResolveEnabled then
          residual.mapM fun f => (env.aiOutput f).map fun c => (f, c)
        else none
      match tier3 with
      | some aiWrites =>
          Except.ok
            { result :=
                { entry := { entry with status := EntryStatus.merged, resolvedTier := some Tier.aiResolve }
                  success := true
                  tier := some Tier.aiResolve
                  conflictFiles := conflicts
                  errorMessage := none }
              repo := commitMerge startMergeConflict
              writes := tier2Writes ++ aiWrites }
      | none =>
          let tier4 : Option (List (String × String)) :=
            if cfg.reimagineEnabled then
              entry.filesModified.mapM fun f =>
                (reimagineFile env canonicalBranch entry.branchName f).map fun c => (f, c)
            else none
          match tier4 with
          | some rWrites =>
              Except.ok
                { result :=
                    { entry := { entry with status := EntryStatus.merged, resolvedTier := some Tier.reimagine }
                      success := true
                      tier := some Tier.reimagine
                      conflictFiles := conflicts
                      errorMessage := none }
                  repo := commitMerge (abortMerge startMergeConflict)
                  writes := rWrites }
          | none =>
              Except.ok
                { result :=
                    { entry := { entry with status := EntryStatus.failed, resolvedTier := none }
                      success := false
                      tier := none
                      conflictFiles := conflicts
                      errorMessage := some ("Merge of " ++ entry.branchName ++ " failed: all resolution tiers failed") }
                  repo := abortMerge startMergeConflict
                  writes := [] }

/-! ### Concrete resolver fixtures (mirroring the test files' `makeTestEntry`) -/

def testEntry : MergeEntry :=
  { branchName := "overstory/test-agent/bead-123"
    beadId := "bead-123"
    agentName := "test-agent"
    filesModified := ["src/test.ts"]
    enqueuedAt := "2026-01-01T00:00:00.000Z"
    status := EntryStatus.pending
    resolvedTier := none }

def mergeCfgOff : MergeConfig := { aiResolveEnabled := false, reimagineEnabled := false }

/-- Environment where `git checkout <canonical>` fails. -/
def failCheckoutEnv : ResolverEnv :=
  { checkoutOk := false
    checkoutStderr := "error: pathspec did not match"
    mergeClean := false
    conflictedFiles := []
    fileContent := fun _ => ""
    aiOutput := fun _ => none
    showFile := fun _ _ => none
    reimagineOutput := fun _ _ _ => none }

/-- Environment where the merge is clean (tier 1 succeeds). -/
def cleanEnv : ResolverEnv :=
  { checkoutOk := true
    checkoutStderr := ""
    mergeClean := true
    conflictedFiles := []
    fileContent := fun _ => ""
    aiOutput := fun _ => none
    showFile := fun _ _ => none
    reimagineOutput := fun _ _ _ => none }

/-- Environment with one conflicted file whose content carries the
standard conflict markers (tier 2 succeeds). -/
def markerEnv : ResolverEnv :=
  { checkoutOk := true
    checkoutStderr := ""
    mergeClean := false
    conflictedFiles := ["src/test.ts"]
    fileContent := fun _ =>
      "<<<<<<< HEAD\nold content\n=======\nnew content\n>>>>>>> branch\n"
    aiOutput := fun _ => none
    showFile := fun _ _ => none
    reimagineOutput := fun _ _ _ => none }

/-- Environment with one conflicted file without markers (delete/modify
conflict): with both gated tiers disabled every tier fails. -/
def residualEnv : ResolverEnv :=
  { checkoutOk := true
    checkoutStderr := ""
    mergeClean := false
    conflictedFiles := ["src/test.ts"]
    fileContent := fun _ => "modified by agent"
    aiOutput := fun _ => none
    showFile := fun _ _ => none
    reimagineOutput := fun _ _ _ => none }

/-- The outcome `resolve` produces on `residualEnv` with every tier off. -/
def failedOutcome : ResolveOutcome :=
  { result :=
      { entry := { testEntry with status := EntryStatus.failed, resolvedTier := none }
        success := false
        tier := none
        conflictFiles := ["src/test.ts"]
        errorMessage :=
          some "Merge of overstory/test-agent/bead-123 failed: all resolution tiers failed" }
    repo := { mergeInProgress := false, dirty := false }
    writes := [] }

/-- The outcome `resolve` produces on `cleanEnv`. -/
def cleanOutcome : ResolveOutcome :=
  { result :=
      { entry := { testEntry with status := EntryStatus.merged, resolvedTier := some Tier.cleanMerge }
        success := true
        tier := some Tier.cleanMerge
        conflictFiles := []
        errorMessage := none }
    repo := { mergeInProgress := false, dirty := false }
    writes := [] }

example : resolve mergeCfgOff residualEnv testEntry "main" "/repo" = Except.ok failedOutcome := rfl

example : resolve mergeCfgOff cleanEnv testEntry "main" "/repo" = Except.ok cleanOutcome := rfl

/-! ### C1 — resolve's exit paths -/

/-- Claim C1 (amended): for every invocation of `resolve` in which the
initial checkout of the canonical branch succeeds, the call returns a
result whose outcome is exactly one of clean-merge, auto-resolve,
ai-resolve, reimagine (success cases, entry marked merged) or failed
(entry marked failed).  The original claim's "never exits by throwing" is
refuted separately: a failing checkout raises `MergeError`. -/
theorem resolve_outcome_classification (cfg : MergeConfig) (env : ResolverEnv)
    (entry : MergeEntry) (canonicalBranch repoRoot : String)
    (hco : env.checkoutOk = true) :
    ∃ oc, resolve cfg env entry canonicalBranch repoRoot = Except.ok oc ∧
      ((oc.result.success = true ∧ oc.result.entry.status = EntryStatus.merged ∧
        (oc.result.tier = some Tier.cleanMerge ∨ oc.result.tier = some Tier.autoResolve ∨
         oc.result.tier = some Tier.aiResolve ∨ oc.result.tier = some Tier.reimagine)) ∨
       (oc.result.success = false ∧ oc.result.tier = none ∧
        oc.result.entry.status = EntryStatus.failed)) := by
  simp only [resolve, hco, Bool.true_eq_false, if_false]
  repeat' split
  all_goals exact ⟨_, rfl, by simp⟩

/-- Claim C1, counterexample to the original wording: when the checkout
of the canonical branch fails, `resolve` exits by raising `MergeError`
(exactly what the resolver tests assert) instead of returning one of the
five outcomes. -/
theorem resolve_throws_on_checkout_failure :
    resolve mergeCfgOff failCheckoutEnv testEntry "main" "/repo" =
      Except.error ⟨"Failed to checkout main: error: pathspec did not match"⟩ := rfl

/-- Claim C1, witness: the classification theorem applied to the clean-merge
environment. -/
theorem resolve_outcome_classification_witness :
    cleanEnv.checkoutOk = true ∧
    (∃ oc, resolve mergeCfgOff cleanEnv testEntry "main" "/repo" = Except.ok oc ∧
      ((oc.result.success = true ∧ oc.result.entry.status = EntryStatus.merged ∧
        (oc.result.tier = some Tier.cleanMerge ∨ oc.result.tier = some Tier.autoResolve ∨
         oc.result.tier = some Tier.aiResolve ∨ oc.result.tier = some Tier.reimagine)) ∨
       (oc.result.success = false ∧ oc.result.tier = none ∧
        oc.result.entry.status = EntryStatus.failed))) :=
  ⟨rfl, resolve_outcome_classification mergeCfgOff cleanEnv testEntry "main" "/repo" rfl⟩

/-! ### C2 — failed resolution aborts and leaves the working copy clean -/

/-- Claim C2: whenever `resolve` returns an unsuccessful result, the entry
is marked failed with a null resolved tier, the error message is non-null,
and the working copy is clean (no merge in progress, no changes) because
the in-progress merge was aborted. -/
theorem resolve_failure_aborted_clean (cfg : MergeConfig) (env : ResolverEnv)
    (entry : MergeEntry) (canonicalBranch repoRoot : String) (oc : ResolveOutcome)
    (h : resolve cfg env entry canonicalBranch repoRoot = Except.ok oc)
    (hfail : oc.result.success = false) :
    oc.result.entry.status = EntryStatus.failed ∧
    oc.result.entry.resolvedTier = none ∧
    oc.result.errorMessage ≠ none ∧
    oc.repo.mergeInProgress = false ∧ oc.repo.dirty = false := by
  simp only [resolve] at h
  repeat' split at h
  all_goals first
    | exact absurd h (fun hh => Except.noConfusion hh)
    | (injection h with h
       subst h
       simp_all [commitMerge, abortMerge, startMergeConflict])

/-- Claim C2, witness: the all-tiers-disabled delete/modify environment. -/
theorem resolve_failure_aborted_clean_witness :
    resolve mergeCfgOff residualEnv testEntry "main" "/repo" = Except.ok failedOutcome ∧
    failedOutcome.result.success = false ∧
    (failedOutcome.result.entry.status = EntryStatus.failed ∧
     failedOutcome.result.entry.resolvedTier = none ∧
     failedOutcome.result.errorMessage ≠ none ∧
     failedOutcome.repo.mergeInProgress = false ∧ failedOutcome.repo.dirty = false) :=
  ⟨rfl, rfl,
   resolve_failure_aborted_clean mergeCfgOff residualEnv testEntry "main" "/repo"
     failedOutcome rfl rfl⟩

/-! ### C10 — resolve only mutates status and resolvedTier -/

/-- Claim C10: every returned result's entry preserves the input entry's
branch name, bead id (task identifier), agent name, modified-file list and
enqueue timestamp; only `status` and `resolvedTier` are mutated. -/
theorem resolve_preserves_entry_identity (cfg : MergeConfig) (env : ResolverEnv)
    (entry : MergeEntry) (canonicalBranch repoRoot : String) (oc : ResolveOutcome)
    (h : resolve cfg env entry canonicalBranch repoRoot = Except.ok oc) :
    oc.result.entry.branchName = entry.branchName ∧
    oc.result.entry.beadId = entry.beadId ∧
    oc.result.entry.agentName = entry.agentName ∧
    oc.result.entry.filesModified = entry.filesModified ∧
    oc.result.entry.enqueuedAt = entry.enqueuedAt := by
  simp only [resolve] at h
  repeat' split at h
  all_goals first
    | exact absurd h (fun hh => Except.noConfusion hh)
    | (injection h with h
       subst h
       simp_all)

/-- Claim C10, witness: entry fields survive a failed resolution (the
scenario of the "failed result preserves original entry fields" test). -/
theorem resolve_preserves_entry_identity_witness :
    resolve mergeCfgOff residualEnv testEntry "main" "/repo" = Except.ok failedOutcome ∧
    (failedOutcome.result.entry.branchName = testEntry.branchName ∧
     failedOutcome.result.entry.beadId = testEntry.beadId ∧
     failedOutcome.result.entry.agentName = testEntry.agentName ∧
     failedOutcome.result.entry.filesModified = testEntry.filesModified ∧
     failedOutcome.result.entry.enqueuedAt = testEntry.enqueuedAt) :=
  ⟨rfl,
   resolve_preserves_entry_identity mergeCfgOff residualEnv testEntry "main" "/repo"
     failedOutcome rfl⟩

/-! ### C3 — tier-2 auto-resolve keeps the incoming side -/

lemma stripLines_keep_append (pre rest : List String)
    (hpre : ∀ l ∈ pre, strStartsWith l "<<<<<<<" = false) :
    stripLines CMode.keep (pre ++ rest) = pre ++ stripLines CMode.keep rest := by
  induction pre with
  | nil => rfl
  | cons a as ih =>
      have ha := hpre a (List.mem_cons_self a as)
      simp only [List.cons_append, stripLines, ha, Bool.false_eq_true, if_false]
      exact congrArg (a :: ·) (ih fun l hl => hpre l (List.mem_cons_of_mem a hl))

lemma stripLines_inHead_append (hd rest : List String)
    (hh : ∀ l ∈ hd, strStartsWith l "=======" = false) :
    stripLines CMode.inHead (hd ++ rest) = stripLines CMode.inHead rest := by
  induction hd with
  | nil => rfl
  | cons a as ih =>
      have ha := hh a (List.mem_cons_self a as)
      simp only [List.cons_append, stripLines, ha, Bool.false_eq_true, if_false]
      exact ih fun l hl => hh l (List.mem_cons_of_mem a hl)

lemma stripLines_inIncoming_append (inc rest : List String)
    (hinc : ∀ l ∈ inc, strStartsWith l ">>>>>>>" = false) :
    stripLines CMode.inIncoming (inc ++ rest) = inc ++ stripLines CMode.inIncoming rest := by
  induction inc with
  | nil => rfl
  | cons a as ih =>
      have ha := hinc a (List.mem_cons_self a as)
      simp only [List.cons_append, stripLines, ha, Bool.false_eq_true, if_false]
      exact congrArg (a :: ·) (ih fun l hl => hinc l (List.mem_cons_of_mem a hl))

/-- Stripping a single conflict block: everything before the block and the
incoming side (and everything after) are kept, the three marker lines and
the whole HEAD side are removed. -/
lemma stripLines_conflict_block (pre hd inc post : List String) (s1 s2 s3 : String)
    (hs1 : strStartsWith s1 "<<<<<<<" = true)
    (hs2 : strStartsWith s2 "=======" = true)
    (hs3 : strStartsWith s3 ">>>>>>>" = true)
    (hpre : ∀ l ∈ pre, strStartsWith l "<<<<<<<" = false)
    (hh : ∀ l ∈ hd, strStartsWith l "=======" = false)
    (hinc : ∀ l ∈ inc, strStartsWith l ">>>>>>>" = false)
    (hpost : ∀ l ∈ post, strStartsWith l "<<<<<<<" = false) :
    stripLines CMode.keep (pre ++ s1 :: (hd ++ s2 :: (inc ++ s3 :: post))) =
      pre ++ (inc ++ post) := by
  rw [stripLines_keep_append pre _ hpre]
  simp only [stripLines, hs1, if_true]
  rw [stripLines_inHead_append hd _ hh]
  simp only [stripLines, hs2, if_true]
  rw [stripLines_inIncoming_append inc _ hinc]
  simp only [stripLines, hs3, if_true]
  rw [show stripLines CMode.keep post = post ++ stripLines CMode.keep [] from by
        simpa using stripLines_keep_append post [] hpost]
  simp [stripLines]

lemma filterMap_keepIncoming_eq_map (g : String → String) (l : List String)
    (hall : ∀ f ∈ l, hasMarkers (g f) = true) :
    (l.filterMap fun f => (resolveConflictsKeepIncoming (g f)).map fun c => (f, c)) =
      l.map fun f => (f, joinLines (stripLines CMode.keep (splitLines (g f)))) := by
  induction l with
  | nil => rfl
  | cons a as ih =>
      have ha := hall a (List.mem_cons_self a as)
      simp only [List.filterMap_cons, List.map_cons, resolveConflictsKeepIncoming, ha,
        if_true, Option.map_some']
      exact congrArg _ (ih fun f hf => hall f (List.mem_cons_of_mem a hf))

lemma filter_keepIncoming_residual_nil (g : String → String) (l : List String)
    (hall : ∀ f ∈ l, hasMarkers (g f) = true) :
    (l.filter fun f => (resolveConflictsKeepIncoming (g f)).isNone) = [] := by
  induction l with
  | nil => rfl
  | cons a as ih =>
      have ha := hall a (List.mem_cons_self a as)
      simp only [List.filter_cons, resolveConflictsKeepIncoming, ha, if_true,
        Option.isNone_some, Bool.false_eq_true, if_false]
      exact ih fun f hf => hall f (List.mem_cons_of_mem a hf)

/-- Claim C3: when every conflicted file's working-copy content carries the
standard conflict markers, tier-2 auto-resolve rewrites each file keeping
only the incoming side (markers and HEAD side stripped) and `resolve`
succeeds with tier auto-resolve and the entry marked merged.  The second
conjunct pins down what the rewrite produces on any content made of a
prefix, a conflict block and a suffix: the prefix, the incoming side and
the suffix survive; the markers and the HEAD side are removed. -/
theorem resolve_tier2_keeps_incoming (cfg : MergeConfig) (env : ResolverEnv)
    (entry : MergeEntry) (canonicalBranch repoRoot : String)
    (hco : env.checkoutOk = true) (hconf : env.mergeClean = false)
    (hall : ∀ f ∈ env.conflictedFiles, hasMarkers (env.fileContent f) = true) :
    (∃ oc, resolve cfg env entry canonicalBranch repoRoot = Except.ok oc ∧
        oc.result.success = true ∧
        oc.result.tier = some Tier.autoResolve ∧
        oc.result.entry.status = EntryStatus.merged ∧
        oc.result.entry.resolvedTier = some Tier.autoResolve ∧
        oc.writes = env.conflictedFiles.map fun f =>
          (f, joinLines (stripLines CMode.keep (splitLines (env.fileContent f))))) ∧
    (∀ (pre hd inc post : List String) (s1 s2 s3 : String),
        strStartsWith s1 "<<<<<<<" = true → strStartsWith s2 "=======" = true →
        strStartsWith s3 ">>>>>>>" = true →
        (∀ l ∈ pre, strStartsWith l "<<<<<<<" = false) →
        (∀ l ∈ hd, strStartsWith l "=======" = false) →
        (∀ l ∈ inc, strStartsWith l ">>>>>>>" = false) →
        (∀ l ∈ post, strStartsWith l "<<<<<<<" = false) →
        stripLines CMode.keep (pre ++ s1 :: (hd ++ s2 :: (inc ++ s3 :: post))) =
          pre ++ (inc ++ post)) := by
  constructor
  · simp only [resolve, hco, hconf, Bool.true_eq_false, Bool.false_eq_true, if_false,
      filter_keepIncoming_residual_nil env.fileContent env.conflictedFiles hall,
      filterMap_keepIncoming_eq_map env.fileContent env.conflictedFiles hall, if_true]
    exact ⟨_, rfl, by simp⟩
  · intro pre hd inc post s1 s2 s3 hs1 hs2 hs3 hpre hh hinc hpost
    exact stripLines_conflict_block pre hd inc post s1 s2 s3 hs1 hs2 hs3 hpre hh hinc hpost

/-- Claim C3, witness: the single marker-bearing conflicted file of the
resolver tests. -/
theorem resolve_tier2_keeps_incoming_witness :
    markerEnv.checkoutOk = true ∧ markerEnv.mergeClean = false ∧
    (∀ f ∈ markerEnv.conflictedFiles, hasMarkers (markerEnv.fileContent f) = true) ∧
    ((∃ oc, resolve mergeCfgOff markerEnv testEntry "main" "/repo" = Except.ok oc ∧
        oc.result.success = true ∧
        oc.result.tier = some Tier.autoResolve ∧
        oc.result.entry.status = EntryStatus.merged ∧
        oc.result.entry.resolvedTier = some Tier.autoResolve ∧
        oc.writes = markerEnv.conflictedFiles.map fun f =>
          (f, joinLines (stripLines CMode.keep (splitLines (markerEnv.fileContent f))))) ∧
    (∀ (pre hd inc post : List String) (s1 s2 s3 : String),
        strStartsWith s1 "<<<<<<<" = true → strStartsWith s2 "=======" = true →
        strStartsWith s3 ">>>>>>>" = true →
        (∀ l ∈ pre, strStartsWith l "<<<<<<<" = false) →
        (∀ l ∈ hd, strStartsWith l "=======" = false) →
        (∀ l ∈ inc, strStartsWith l ">>>>>>>" = false) →
        (∀ l ∈ post, strStartsWith l "<<<<<<<" = false) →
        stripLines CMode.keep (pre ++ s1 :: (hd ++ s2 :: (inc ++ s3 :: post))) =
          pre ++ (inc ++ post))) :=
  ⟨rfl, rfl, by decide,
   resolve_tier2_keeps_incoming mergeCfgOff markerEnv testEntry "main" "/repo"
     rfl rfl (by decide)⟩

/-! ### C4 — two-phase worktree removal -/

/-- One row of `git worktree list --porcelain` after parsing
(`refs/heads/` prefix already stripped from the branch). -/
structure WorktreeEntry where
  path : String
  head : String
  branch : String
  deriving DecidableEq

/-- The error worktree operations throw. -/
structure WorktreeError where
  message : String
  deriving DecidableEq

/-- The git invocations `removeWorktree` can issue, in order. -/
inductive GitCmd
  | listCmd
  | removeCmd (path : String)
  | branchDeleteCmd (branch : String)
  deriving DecidableEq

/-- Environment answering the external queries of `removeWorktree`:
whether `git worktree list --porcelain` succeeds and what it lists,
whether `git worktree remove <path>` succeeds (with its stderr), and
whether `git branch -d <branch>` succeeds (its outcome is ignored). -/
structure WtEnv where
  listOk : Bool
  listing : List WorktreeEntry
  removeOk : Bool
  removeStderr : String
  branchDeleteOk : Bool
  deriving DecidableEq

/-- Modelled from the spec: `removeWorktree(repoRoot, path)` of
`src/worktree/manager.ts` (implementation file absent from the sources;
behaviour fixed by spec section 4.2 and the manager tests).  List the
worktrees and look up the branch of the entry at `path` (empty string
when absent); remove the checkout — a failure there throws
`WorktreeError`; then, only when a branch was found, attempt to delete
it, ignoring any failure.  Returns the trace of issued git commands. -/
def removeWorktree (env : WtEnv) (_repoRoot path : String) :
    Except WorktreeError (List GitCmd) :=
  if env.listOk = false then
    Except.error ⟨"Failed to list worktrees"⟩
  else
    let branch := ((env.listing.find? fun e => e.path = path).map WorktreeEntry.branch).getD ""
    if env.removeOk = false then
      Except.error ⟨"Failed to remove worktree " ++ path ++ ": " ++ env.removeStderr⟩
    else if branch = "" then
      Except.ok [GitCmd.listCmd, GitCmd.removeCmd path]
    else
      Except.ok [GitCmd.listCmd, GitCmd.removeCmd path, GitCmd.branchDeleteCmd branch]

/-- Claim C4: with a readable worktree listing, (1) a failing checkout
removal is fatal and raises `WorktreeError`; (2) on successful removal the
call succeeds and issues the commands in order — list, remove, then (only
when the path's entry carries a branch) the branch delete; (3) the result
never depends on whether the branch deletion succeeds; (4) when the path
is absent from the listing the branch-delete step is skipped entirely
while the removal still runs. -/
theorem removeWorktree_two_phase (env : WtEnv) (repoRoot path : String)
    (hl : env.listOk = true) :
    (env.removeOk = false →
      removeWorktree env repoRoot path =
        Except.error ⟨"Failed to remove worktree " ++ path ++ ": " ++ env.removeStderr⟩) ∧
    (env.removeOk = true →
      removeWorktree env repoRoot path =
        Except.ok ([GitCmd.listCmd, GitCmd.removeCmd path] ++
          (if ((env.listing.find? fun e => e.path = path).map WorktreeEntry.branch).getD "" = ""
           then []
           else [GitCmd.branchDeleteCmd
                  (((env.listing.find? fun e => e.path = path).map WorktreeEntry.branch).getD "")]))) ∧
    (∀ b : Bool,
      removeWorktree { env with branchDeleteOk := b } repoRoot path =
        removeWorktree env repoRoot path) ∧
    ((env.listing.find? fun e => e.path = path) = none → env.removeOk = true →
      removeWorktree env repoRoot path = Except.ok [GitCmd.listCmd, GitCmd.removeCmd path]) := by
  refine ⟨fun hr => ?_, fun hr => ?_, fun b => ?_, fun hfind hr => ?_⟩
  · simp [removeWorktree, hl, hr]
  · simp only [removeWorktree, hl, hr, Bool.true_eq_false, if_false]
    split
    · simp_all
    · simp_all
  · simp [removeWorktree]
  · simp [removeWorktree, hl, hr, hfind]

/-- Fixture matching the listing used by the manager tests; removal
succeeds, branch deletion fails (and is ignored). -/
def wtEnvFixture : WtEnv :=
  { listOk := true
    listing := [{ path := "/repo/.overstory/worktrees/auth-login"
                  head := "def456abc789"
                  branch := "overstory/auth-login/bead-abc" }]
    removeOk := true
    removeStderr := ""
    branchDeleteOk := false }

example :
    removeWorktree wtEnvFixture "/repo" "/repo/.overstory/worktrees/auth-login" =
      Except.ok [GitCmd.listCmd, GitCmd.removeCmd "/repo/.overstory/worktrees/auth-login",
        GitCmd.branchDeleteCmd "overstory/auth-login/bead-abc"] := rfl

example :
    removeWorktree wtEnvFixture "/repo" "/repo/.overstory/worktrees/unknown" =
      Except.ok [GitCmd.listCmd, GitCmd.removeCmd "/repo/.overstory/worktrees/unknown"] := rfl

/-- Claim C4, witness: the two-phase theorem applied to the fixture. -/
theorem removeWorktree_two_phase_witness :
    wtEnvFixture.listOk = true ∧
    (wtEnvFixture.removeOk = true →
      removeWorktree wtEnvFixture "/repo" "/repo/.overstory/worktrees/auth-login" =
        Except.ok ([GitCmd.listCmd, GitCmd.removeCmd "/repo/.overstory/worktrees/auth-login"] ++
          (if ((wtEnvFixture.listing.find?
                  fun e => e.path = "/repo/.overstory/worktrees/auth-login").map
                 WorktreeEntry.branch).getD "" = ""
           then []
           else [GitCmd.branchDeleteCmd
                  (((wtEnvFixture.listing.find?
                       fun e => e.path = "/repo/.overstory/worktrees/auth-login").map
                      WorktreeEntry.branch).getD "")]))) :=
  ⟨rfl,
   (removeWorktree_two_phase wtEnvFixture "/repo" "/repo/.overstory/worktrees/auth-login"
      rfl).2.1⟩

/-! ### Mailbox data model (C5–C8)

The mail store (`src/mail/store.ts`), client (`src/mail/client.ts`) and
command handlers (`src/commands/mail.ts`) are absent from the sources —
only `src/commands/mail.test.ts` is present — so the operations below are
modelled from spec sections 4.7–4.9 and that test file. -/

/-- Message types (semantic and protocol). -/
inductive MsgType
  | status
  | question
  | result
  | error
  | worker_done
  | merge_ready
  | merged
  | escalation
  deriving DecidableEq

/-- Message priorities. -/
inductive Priority
  | normal
  | high
  | urgent
  deriving DecidableEq

/-- One mail row.  `id` is the store-assigned unique identifier; `readAt`
is `none` while unread.  (`from`/`to` are reserved words in Lean, hence
`fromAgent`/`toAgent`.) -/
structure Message where
  id : Nat
  fromAgent : String
  toAgent : String
  subject : String
  body : String
  mtype : MsgType
  priority : Priority
  createdAt : Nat
  readAt : Option Nat
  inReplyTo : Option Nat
  deriving DecidableEq

/-- A pending-nudge marker, one per recipient
(`.overstory/pending-nudges/{recipient}.json`). -/
structure Marker where
  recipient : String
  fromAgent : String
  subject : String
  messageId : Nat
  reason : String
  createdAt : Nat
  deriving DecidableEq

/-- The persistent mail state: the message log (append order equals
`created_at` order), the next store-assigned id, and the pending-nudge
registry (a file per recipient; `none` means no marker file). -/
structure MailState where
  messages : List Message
  nextId : Nat
  nudges : String → Option Marker

/-- A send request as assembled by `mail send` (defaults: type `status`,
priority `normal`, from `"orchestrator"`). -/
structure SendReq where
  fromAgent : String
  toAgent : String
  subject : String
  body : String
  mtype : MsgType
  priority : Priority
  deriving DecidableEq

/-- Modelled from the spec: the nudge decision of `mail send` — a marker
is queued when priority is urgent or high, or when the message carries the
`worker_done` protocol type; the reason strings are the ones the tests
check in the marker file. -/
def nudgeReason (p : Priority) (t : MsgType) : Option String :=
  match p with
  | Priority.urgent => some "urgent priority"
  | Priority.high => some "high priority"
  | Priority.normal => if t = MsgType.worker_done then some "worker_done" else none

/-- Modelled from the spec: `send` of the mail client — append the message
with the store-assigned id, and when the nudge condition holds overwrite
the recipient's pending-nudge marker.  Returns the new state and the id. -/
def send (st : MailState) (req : SendReq) (now : Nat) : MailState × Nat :=
  let id := st.nextId
  let msg : Message :=
    { id := id
      fromAgent := req.fromAgent
      toAgent := req.toAgent
      subject := req.subject
      body := req.body
      mtype := req.mtype
      priority := req.priority
      createdAt := now
      readAt := none
      inReplyTo := none }
  let nudges :=
    match nudgeReason req.priority req.mtype with
    | some r =>
        fun a =>
          if a = req.toAgent then
            some { recipient := req.toAgent
                   fromAgent := req.fromAgent
                   subject := req.subject
                   messageId := id
                   reason := r
                   createdAt := now }
          else st.nudges a
    | none => st.nudges
  ({ messages := st.messages ++ [msg], nextId := id + 1, nudges := nudges }, id)

/-- `get(id)`: the store lookup. -/
def findMsg (st : MailState) (id : Nat) : Option Message :=
  st.messages.find? fun m => m.id = id

/-- Modelled from the spec: `reply(originalId, {from, body})` — recipient
is the original recipient when the replier is the original sender,
otherwise the original sender; subject gains a `"Re: "` prefix unless
already present; `inReplyTo` records the original id.  `none` when the
original message does not exist. -/
def reply (st : MailState) (originalId : Nat) (replier body : String) (now : Nat) :
    Option (MailState × Message) :=
  match findMsg st originalId with
  | none => none
  | some orig =>
      let toA := if replier = orig.fromAgent then orig.toAgent else orig.fromAgent
      let subj := if strStartsWith orig.subject "Re: " then orig.subject
                  else "Re: " ++ orig.subject
      let msg : Message :=
        { id := st.nextId
          fromAgent := replier
          toAgent := toA
          subject := subj
          body := body
          mtype := MsgType.status
          priority := Priority.normal
          createdAt := now
          readAt := none
          inReplyTo := some originalId }
      some ({ st with messages := st.messages ++ [msg], nextId := st.nextId + 1 }, msg)

/-- What `markRead` reports. -/
inductive MarkReadResult
  | marked
  | alreadyRead
  | notFound
  deriving DecidableEq

/-- Modelled from the spec: `markRead(id)` — stamp `readAt` when the
message is unread; a second call is a no-op reported as already read. -/
def markRead (st : MailState) (id : Nat) (now : Nat) : MailState × MarkReadResult :=
  match findMsg st id with
  | none => (st, MarkReadResult.notFound)
  | some m =>
      if m.readAt.isSome then (st, MarkReadResult.alreadyRead)
      else
        ({ st with messages := st.messages.map fun x =>
             if x.id = id then { x with readAt := some now } else x },
         MarkReadResult.marked)

/-- The unread messages for a recipient, oldest first (the store appends
in `created_at` order, so filtering preserves chronological order). -/
def unreadFor (st : MailState) (agent : String) : List Message :=
  st.messages.filter fun m => m.toAgent = agent ∧ m.readAt = none

/-- The text `mail check --inject` produces, structurally: an optional
priority banner (the drained marker, carrying reason, sender, subject and
messageId) followed by the unread messages. -/
structure InjectOutput where
  banner : Option Marker
  inbox : List Message
  deriving DecidableEq

/-- Modelled from the spec: `mail check --inject --agent R` — when a
pending-nudge marker exists for R, emit its banner and clear the marker;
then list R's unread messages (not marking them read). -/
def checkInject (st : MailState) (agent : String) : InjectOutput × MailState :=
  match st.nudges agent with
  | some mk =>
      ({ banner := some mk, inbox := unreadFor st agent },
       { st with nudges := fun a => if a = agent then none else st.nudges a })
  | none => ({ banner := none, inbox := unreadFor st agent }, st)

/-! ### Mail fixtures (mirroring the seeded store of the mail tests) -/

/-- The seeded message "Build task" from orchestrator to builder-1. -/
def origMsg : Message :=
  { id := 1
    fromAgent := "orchestrator"
    toAgent := "builder-1"
    subject := "Build task"
    body := "Implement feature X"
    mtype := MsgType.status
    priority := Priority.normal
    createdAt := 1
    readAt := none
    inReplyTo := none }

/-- A store holding just `origMsg`, with no pending nudges. -/
def mailFixture : MailState :=
  { messages := [origMsg], nextId := 2, nudges := fun _ => none }

/-- An empty store. -/
def emptyMail : MailState :=
  { messages := [], nextId := 1, nudges := fun _ => none }

/-! ### C5 — reply recipient computation -/

/-- Claim C5: for a reply to an original message sent from A to B, the
reply's recipient is B when the replier is A, and A otherwise. -/
theorem reply_recipient_rule (st : MailState) (originalId : Nat) (replier body : String)
    (now : Nat) (orig : Message) (p : MailState × Message)
    (hfind : findMsg st originalId = some orig)
    (hrep : reply st originalId replier body now = some p) :
    p.2.toAgent = if replier = orig.fromAgent then orig.toAgent else orig.fromAgent := by
  simp only [reply, hfind] at hrep
  injection hrep with hrep
  subst hrep
  rfl

/-- The reply builder-1 sends to message 1 of `mailFixture` ("Done"). -/
def replyMsgFixture : Message :=
  { id := 2
    fromAgent := "builder-1"
    toAgent := "orchestrator"
    subject := "Re: Build task"
    body := "Done"
    mtype := MsgType.status
    priority := Priority.normal
    createdAt := 5
    readAt := none
    inReplyTo := some 1 }

/-- The state/message pair `reply` produces on `mailFixture`. -/
def replyResultFixture : MailState × Message :=
  ({ messages := [origMsg, replyMsgFixture], nextId := 3, nudges := mailFixture.nudges },
   replyMsgFixture)

/-- Claim C5, witness: builder-1 (the original recipient) replies, so the
reply goes to orchestrator (the original sender). -/
theorem reply_recipient_rule_witness :
    findMsg mailFixture 1 = some origMsg ∧
    reply mailFixture 1 "builder-1" "Done" 5 = some replyResultFixture ∧
    replyResultFixture.2.toAgent =
      if "builder-1" = origMsg.fromAgent then origMsg.toAgent else origMsg.fromAgent :=
  ⟨rfl, rfl,
   reply_recipient_rule mailFixture 1 "builder-1" "Done" 5 origMsg replyResultFixture
     rfl rfl⟩

/-! ### C6 — send queues a pending-nudge marker exactly when required -/

/-- Claim C6: starting from a recipient with no marker, `send` leaves a
pending-nudge marker for the recipient iff the priority is high or urgent
or the type is `worker_done`; the marker's reason is "urgent priority",
"high priority" or "worker_done" correspondingly, and it records the
sender, subject and the id of the sent message. -/
theorem send_nudge_marker_iff (st : MailState) (req : SendReq) (now : Nat)
    (hfresh : st.nudges req.toAgent = none) :
    (((send st req now).1.nudges req.toAgent).isSome = true ↔
      (req.priority = Priority.high ∨ req.priority = Priority.urgent ∨
       req.mtype = MsgType.worker_done)) ∧
    (∀ mk, (send st req now).1.nudges req.toAgent = some mk →
      mk.reason = (if req.priority = Priority.urgent then "urgent priority"
                   else if req.priority = Priority.high then "high priority"
                   else "worker_done") ∧
      mk.recipient = req.toAgent ∧ mk.fromAgent = req.fromAgent ∧
      mk.subject = req.subject ∧ mk.messageId = (send st req now).2 ∧
      mk.createdAt = now) := by
  cases hp : req.priority <;>
    by_cases ht : req.mtype = MsgType.worker_done <;>
      simp_all [send, nudgeReason]

/-- The urgent send request of the auto-nudge tests. -/
def sendReqUrgent : SendReq :=
  { fromAgent := "orchestrator"
    toAgent := "builder-1"
    subject := "Fix NOW"
    body := "Production is down"
    mtype := MsgType.status
    priority := Priority.urgent }

/-- Claim C6, witness: an urgent send into the empty store queues a marker
with reason "urgent priority". -/
theorem send_nudge_marker_iff_witness :
    emptyMail.nudges sendReqUrgent.toAgent = none ∧
    ((((send emptyMail sendReqUrgent 7).1.nudges sendReqUrgent.toAgent).isSome = true ↔
      (sendReqUrgent.priority = Priority.high ∨ sendReqUrgent.priority = Priority.urgent ∨
       sendReqUrgent.mtype = MsgType.worker_done)) ∧
    (∀ mk, (send emptyMail sendReqUrgent 7).1.nudges sendReqUrgent.toAgent = some mk →
      mk.reason = (if sendReqUrgent.priority = Priority.urgent then "urgent priority"
                   else if sendReqUrgent.priority = Priority.high then "high priority"
                   else "worker_done") ∧
      mk.recipient = sendReqUrgent.toAgent ∧ mk.fromAgent = sendReqUrgent.fromAgent ∧
      mk.subject = sendReqUrgent.subject ∧
      mk.messageId = (send emptyMail sendReqUrgent 7).2 ∧
      mk.createdAt = 7)) :=
  ⟨rfl, send_nudge_marker_iff emptyMail sendReqUrgent 7 rfl⟩

/-! ### C7 — check --inject drains the banner exactly once -/

/-- Claim C7: when a pending-nudge marker exists for a recipient, the
first `check --inject` emits its banner (carrying the marker's reason,
sender, subject and messageId) and clears the marker, so an immediately
following second `check --inject` emits no banner. -/
theorem checkInject_banner_once (st : MailState) (agent : String) (mk : Marker)
    (h : st.nudges agent = some mk) :
    (checkInject st agent).1.banner = some mk ∧
    ((checkInject st agent).2).nudges agent = none ∧
    (checkInject (checkInject st agent).2 agent).1.banner = none := by
  simp [checkInject, h]

/-- The marker the urgent "Critical fix" send leaves for builder-1. -/
def markerFixture : Marker :=
  { recipient := "builder-1"
    fromAgent := "orchestrator"
    subject := "Critical fix"
    messageId := 3
    reason := "urgent priority"
    createdAt := 9 }

/-- A store whose registry holds `markerFixture` for builder-1. -/
def nudgedMail : MailState :=
  { messages := []
    nextId := 4
    nudges := fun a => if a = "builder-1" then some markerFixture else none }

/-- Claim C7, witness: the banner appears on the first injection for
builder-1 and on no second one. -/
theorem checkInject_banner_once_witness :
    nudgedMail.nudges "builder-1" = some markerFixture ∧
    ((checkInject nudgedMail "builder-1").1.banner = some markerFixture ∧
     ((checkInject nudgedMail "builder-1").2).nudges "builder-1" = none ∧
     (checkInject (checkInject nudgedMail "builder-1").2 "builder-1").1.banner = none) :=
  ⟨by simp [nudgedMail],
   checkInject_banner_once nudgedMail "builder-1" markerFixture (by simp [nudgedMail])⟩

/-! ### C8 — markRead is idempotent -/

lemma find?_markRead_map (l : List Message) (id now : Nat) :
    (l.map fun x => if x.id = id then { x with readAt := some now } else x).find?
        (fun m => m.id = id) =
      (l.find? fun m => m.id = id).map
        fun x => if x.id = id then { x with readAt := some now } else x := by
  induction l with
  | nil => rfl
  | cons a as ih =>
      by_cases ha : a.id = id
      · simp [List.find?, ha]
      · simp [List.find?, ha, ih]

/-- Claim C8: for an existing message, `markRead` is idempotent — the
second call leaves the store exactly as the first left it, and reports
already read. -/
theorem markRead_idempotent (st : MailState) (id now1 now2 : Nat) (m : Message)
    (h : findMsg st id = some m) :
    (markRead (markRead st id now1).1 id now2).1 = (markRead st id now1).1 ∧
    (markRead (markRead st id now1).1 id now2).2 = MarkReadResult.alreadyRead := by
  have hid : m.id = id := by
    have h' : st.messages.find? (fun m => m.id = id) = some m := h
    simpa using List.find?_some h'
  cases hma : m.readAt with
  | some t => simp [markRead, h, hma]
  | none =>
      have hfind1 :
          findMsg { st with messages := st.messages.map fun x =>
              if x.id = id then { x with readAt := some now1 } else x } id =
            some { m with readAt := some now1 } := by
        show (st.messages.map _).find? _ = _
        rw [find?_markRead_map]
        have h' : st.messages.find? (fun m => m.id = id) = some m := h
        rw [h']
        simp [hid]
      simp [markRead, h, hma, hfind1]

/-- Claim C8, witness: marking the seeded message read twice — the second
call changes nothing and reports already read. -/
theorem markRead_idempotent_witness :
    findMsg mailFixture 1 = some origMsg ∧
    ((markRead (markRead mailFixture 1 3).1 1 4).1 = (markRead mailFixture 1 3).1 ∧
     (markRead (markRead mailFixture 1 3).1 1 4).2 = MarkReadResult.alreadyRead) :=
  ⟨rfl, markRead_idempotent mailFixture 1 3 4 origMsg rfl⟩

/-! ### C9 — tmux listSessions (embedded from `src/worktree/tmux.ts`) -/

/-- Captured output of a spawned command (`runCommand` in
`src/worktree/tmux.ts`). -/
structure CmdResult where
  stdout : String
  stderr : String
  exitCode : Int
  deriving DecidableEq

/-- The error `AgentError` of `src/errors.ts` as thrown by the tmux
wrappers. -/
structure AgentError where
  message : String
  deriving DecidableEq

/-- One parsed `#{session_name}:#{pid}` line. -/
structure TmuxSession where
  name : String
  pid : Int
  deriving DecidableEq

/-- Leading decimal digits of a character list, `none` when there are
none (the NaN case of JavaScript parseInt). -/
def leadingDigits (cs : List Char) : Option Nat :=
  let ds := cs.takeWhile Char.isDigit
  if ds.isEmpty then none
  else some (ds.foldl (fun acc c => acc * 10 + (c.toNat - '0'.toNat)) 0)

/-- JavaScript `Number.parseInt(s, 10)` as used on pid strings: skip
leading whitespace, allow a sign, read leading decimal digits; `none`
models NaN. -/
def jsParseInt10 (s : String) : Option Int :=
  match s.toList.dropWhile isJsSpace with
  | '-' :: rest => (leadingDigits rest).map fun n => -(n : Int)
  | '+' :: rest => (leadingDigits rest).map fun n => (n : Int)
  | rest => (leadingDigits rest).map fun n => (n : Int)

/-- JavaScript `line.indexOf(":")` followed by the two slices: the part
before the first colon and the part after it; `none` when there is no
colon (the `sepIndex === -1` case). -/
def splitAtColon (s : String) : Option (String × String) :=
  match (s.toList.span fun c => !(c = ':' : Bool)).2 with
  | [] => none
  | _ :: rest => some (String.mk (s.toList.takeWhile fun c => !(c = ':' : Bool)), String.mk rest)

/-- One step of the parsing loop of `listSessions`: skip blank lines,
lines without a colon, lines with an empty name or pid part, and lines
whose pid does not parse; otherwise append the session. -/
def parseSessionLine (acc : List TmuxSession) (line : String) : List TmuxSession :=
  if strTrim line = "" then acc
  else
    match splitAtColon line with
    | none => acc
    | some (name, pidStr) =>
        if name ≠ "" ∧ pidStr ≠ "" then
          match jsParseInt10 pidStr with
          | some pid => acc ++ [{ name := name, pid := pid }]
          | none => acc
        else acc

/-- `listSessions` of `src/worktree/tmux.ts`, as a function of the
captured result of `tmux list-sessions -F "#{session_name}:#{pid}"`:
a non-zero exit whose stderr mentions "no server running" or
"no sessions" yields the empty list; any other non-zero exit throws
`AgentError`; otherwise the trimmed stdout is parsed line by line. -/
def listSessions (res : CmdResult) : Except AgentError (List TmuxSession) :=
  if res.exitCode ≠ 0 then
    if strIncludes res.stderr "no server running" || strIncludes res.stderr "no sessions" then
      Except.ok []
    else
      Except.error ⟨"Failed to list tmux sessions: " ++ strTrim res.stderr⟩
  else
    Except.ok ((splitLines (strTrim res.stdout)).foldl parseSessionLine [])

example :
    listSessions { stdout := "", stderr := "no server running on /tmp/tmux-0/default", exitCode := 1 }
      = Except.ok [] := rfl

example :
    listSessions { stdout := "overstory-impl:123\nmain:77", stderr := "", exitCode := 0 }
      = Except.ok [{ name := "overstory-impl", pid := 123 }, { name := "main", pid := 77 }] := by
  rfl

/-- Claim C9: a non-zero tmux exit with stderr indicating "no server
running" or "no sessions" makes `listSessions` return the empty list
rather than an error; any other non-zero exit raises `AgentError`. -/
theorem listSessions_no_server_empty (res : CmdResult) (h : res.exitCode ≠ 0) :
    ((strIncludes res.stderr "no server running" = true ∨
      strIncludes res.stderr "no sessions" = true) →
      listSessions res = Except.ok []) ∧
    (strIncludes res.stderr "no server running" = false →
      strIncludes res.stderr "no sessions" = false →
      listSessions res = Except.error ⟨"Failed to list tmux sessions: " ++ strTrim res.stderr⟩) := by
  constructor
  · intro hs
    rcases hs with hs | hs <;> simp [listSessions, h, hs]
  · intro h1 h2
    simp [listSessions, h, h1, h2]

/-- Claim C9, witness: the no-server case returns empty; an unknown
failure raises `AgentError`. -/
theorem listSessions_no_server_empty_witness :
    ((1 : Int) ≠ 0) ∧
    (strIncludes "no server running on /tmp/tmux-0/default" "no server running" = true ∨
     strIncludes "no server running on /tmp/tmux-0/default" "no sessions" = true) ∧
    listSessions { stdout := "", stderr := "no server running on /tmp/tmux-0/default", exitCode := 1 }
      = Except.ok [] :=
  ⟨by decide, Or.inl (by decide),
   (listSessions_no_server_empty
      { stdout := "", stderr := "no server running on /tmp/tmux-0/default", exitCode := 1 }
      (by decide)).1 (Or.inl (by decide))⟩

end Overstory
